import Mathlib

/-!
Verification of the finance-hq data pipeline (src/app.py).

The file shallowly embeds the pipeline: the field parsers applied by
`load_data` (pandas `to_numeric` / `to_datetime` restricted to the formats
this app stores and reads), the per-row normalization of the three sheets
(transactions, budgets, time logs), the loader's failure policy, the month
filter, the budget comparison (outer merge, usage percent, status marker),
the burndown projection and the hourly-rate estimate. Amounts and hours are
rationals, dates are explicit year/month/day records with a seconds-of-day
component, and a pandas null (NaN / NaT) is `Option.none`.
-/

namespace FinanceHQ

/-! ### Character-level helpers

Text is processed as `List Char` with structural recursion so that every
parser evaluates inside the kernel. -/

/-- Split a character list at every occurrence of `sep` (Python `split`):
always returns at least one piece, empty pieces kept. -/
def splitChAux (sep : Char) : List Char → List Char → List (List Char)
  | [], acc => [acc.reverse]
  | c :: cs, acc =>
    if c == sep then acc.reverse :: splitChAux sep cs []
    else splitChAux sep cs (c :: acc)

def splitCh (sep : Char) (l : List Char) : List (List Char) := splitChAux sep l []

/-- Decimal digits to a number, `"305".toNat`-style. -/
def digitsToNat (l : List Char) : Nat := l.foldl (fun n c => n * 10 + (c.toNat - 48)) 0

/-- A non-empty all-digit chunk parses; anything else is `none`. -/
def parseNatDigits (l : List Char) : Option Nat :=
  if l ≠ [] ∧ l.all Char.isDigit then some (digitsToNat l) else none

/-- Leading and trailing whitespace removed (Python `str.strip`). -/
def trimChars (l : List Char) : List Char :=
  ((l.dropWhile Char.isWhitespace).reverse.dropWhile Char.isWhitespace).reverse

def strip (s : String) : String := String.mk (trimChars s.data)

/-! ### Field parsers -/

/-- Python `float` on a token made of digits, at most one dot and no sign:
`"5"`, `"5."`, `".5"`, `"3.25"` parse; `""`, `"."`, `"3-4"`, `"1.2.3"` do not. -/
def parseUnsignedDec (l : List Char) : Option Rat :=
  match splitCh '.' l with
  | [ip] => (parseNatDigits ip).map (fun n => (n : Rat))
  | [ip, fp] =>
    if ip = [] ∧ fp = [] then none
    else if ip.all Char.isDigit ∧ fp.all Char.isDigit then
      some ((digitsToNat ip : Rat) + (digitsToNat fp : Rat) / (10 : Rat) ^ fp.length)
    else none
  | _ => none

/-- Python `float` with an optional leading minus sign. -/
def parseDec (l : List Char) : Option Rat :=
  match l with
  | c :: rest => if c == '-' then (parseUnsignedDec rest).map (fun q => -q) else parseUnsignedDec l
  | [] => none

/-- The regex clean of app.py line 33/44: keep only digits, `.` and `-`. -/
def cleanAmountChars (l : List Char) : List Char :=
  l.filter (fun c => c.isDigit || c == '.' || c == '-')

/-- `pd.to_numeric(x.str.replace(r"[^\d.-]", ""), errors="coerce").fillna(0)`
(app.py lines 33 and 44): strip every character that is not a digit, dot or
minus, parse the remainder, and degrade to 0 when nothing numeric is left. -/
def parse_amount (s : String) : Rat := (parseDec (cleanAmountChars s.data)).getD 0

/-- `pd.to_numeric(x, errors="coerce")` on a plain numeric token (app.py
line 54, the Hours column): surrounding whitespace tolerated, no regex clean. -/
def to_numeric (s : String) : Option Rat := parseDec (trimChars s.data)

/-! ### Calendar and dates -/

/-- Gregorian leap year (`calendar.isleap`). -/
def isLeap (y : Nat) : Bool := y % 4 == 0 && (y % 100 != 0 || y % 400 == 0)

/-- `calendar.monthrange(y, m)[1]`: the number of days of the month. -/
def daysInMonth (y m : Nat) : Nat :=
  if m == 2 then (if isLeap y then 29 else 28)
  else if m == 4 || m == 6 || m == 9 || m == 11 then 30
  else 31

structure PDate where
  year : Nat
  month : Nat
  day : Nat
deriving DecidableEq, Repr

/-- A pandas `Timestamp`: a calendar date plus a time of day in seconds. -/
structure PDateTime where
  date : PDate
  secs : Nat
deriving DecidableEq, Repr

/-- `YYYY-MM-DD` with a four-digit year and calendar-valid month and day. -/
def parseISODate (l : List Char) : Option PDate :=
  match splitCh '-' l with
  | [ys, ms, ds] =>
    match parseNatDigits ys, parseNatDigits ms, parseNatDigits ds with
    | some y, some mo, some d =>
      if ys.length = 4 ∧ 1 ≤ mo ∧ mo ≤ 12 ∧ 1 ≤ d ∧ d ≤ daysInMonth y mo then
        some ⟨y, mo, d⟩
      else none
    | _, _, _ => none
  | _ => none

/-- `HH:MM:SS` as seconds since midnight. -/
def parseISOTime (l : List Char) : Option Nat :=
  match splitCh ':' l with
  | [hs, ms, ss] =>
    match parseNatDigits hs, parseNatDigits ms, parseNatDigits ss with
    | some h, some mi, some s =>
      if h ≤ 23 ∧ mi ≤ 59 ∧ s ≤ 59 then some (h * 3600 + mi * 60 + s) else none
    | _, _, _ => none
  | _ => none

/-- The date/time split pandas applies to an ISO timestamp: at `T` when one is
present, otherwise at a space. -/
def splitDateTime (l : List Char) : List (List Char) :=
  if l.contains 'T' then splitCh 'T' l else splitCh ' ' l

/-- Models `pd.to_datetime(x, errors="coerce")` on the formats this pipeline
stores and reads back: `YYYY-MM-DD`, alone or followed by a space or `T` and
`HH:MM:SS`. Every other text coerces to the null timestamp (NaT), here
`none`; the parse never raises. -/
def toDatetimeChars (l : List Char) : Option PDateTime :=
  match splitDateTime l with
  | [d] => (parseISODate d).map (fun dd => ⟨dd, 0⟩)
  | [d, t] =>
    match parseISODate d, parseISOTime t with
    | some dd, some tt => some ⟨dd, tt⟩
    | _, _ => none
  | _ => none

def to_datetime (s : String) : Option PDateTime := toDatetimeChars s.data

/-- The Date cleaning of app.py line 34:
`pd.to_datetime(x.split(" ")[0], errors="coerce")` — the text up to the first
space character, then coerced, `none` (NaT) on failure. -/
def parse_date (s : String) : Option PDateTime :=
  toDatetimeChars (s.data.takeWhile (fun c => c != ' '))

/-- `strftime("%Y-%m")`: zero-padded year and month (app.py lines 35 and 56). -/
def pad2 (n : Nat) : String := if n < 10 then "0" ++ toString n else toString n

def pad4 (n : Nat) : String :=
  if n < 10 then "000" ++ toString n
  else if n < 100 then "00" ++ toString n
  else if n < 1000 then "0" ++ toString n
  else toString n

def month_sort (t : PDateTime) : String := pad4 t.date.year ++ "-" ++ pad2 t.date.month

/-! ### Record normalization (load_data, app.py lines 27-58) -/

/-- A raw row of the transactions sheet, one text per column. -/
structure RawTxn where
  dateText : String
  amountText : String
  category : String
  description : String
  mode : String
deriving DecidableEq, Repr

/-- A cleaned transaction row. `date` is `none` for NaT — the row is kept. -/
structure Txn where
  date : Option PDateTime
  amount : Rat
  category : String
  description : String
  mode : String
  monthSort : Option String
deriving DecidableEq, Repr

/-- One row of the transactions sheet after the cleaning of app.py lines
31-35: the amount regex-cleaned, coerced and `fillna(0)`; the date truncated
at the first space and coerced, NaT (`none`) kept in place — the row is not
dropped; `Month_Sort` the `%Y-%m` rendering of the date, null for NaT
(`strftime` of NaT is NaN). -/
def loadTxnRow (r : RawTxn) : Txn :=
  { date := parse_date r.dateText
    amount := parse_amount r.amountText
    category := r.category
    description := r.description
    mode := r.mode
    monthSort := (parse_date r.dateText).map month_sort }

def normalizeTx (rows : List RawTxn) : List Txn := rows.map loadTxnRow

structure RawBudget where
  category : String
  limitText : String
deriving DecidableEq, Repr

structure BudgetRow where
  category : String
  monthlyLimit : Rat
deriving DecidableEq, Repr

/-- A Budgets-sheet row after app.py line 44: the limit regex-cleaned,
coerced and `fillna(0)`. -/
def loadBudgetRow (r : RawBudget) : BudgetRow := ⟨r.category, parse_amount r.limitText⟩

def normalizeBudget (rows : List RawBudget) : List BudgetRow := rows.map loadBudgetRow

structure RawTime where
  dateText : String
  category : String
  activity : String
  hoursText : String
deriving DecidableEq, Repr

structure TimeRow where
  date : Option PDateTime
  category : String
  activity : String
  hours : Rat
  monthSort : Option String
deriving DecidableEq, Repr

/-- A Time_Logs row after app.py lines 54-57: hours coerced and `fillna(0)`,
date coerced (no space split on this path), category stripped. -/
def loadTimeRow (r : RawTime) : TimeRow :=
  { date := to_datetime r.dateText
    category := strip r.category
    activity := r.activity
    hours := (to_numeric r.hoursText).getD 0
    monthSort := (to_datetime r.dateText).map month_sort }

def normalizeTime (rows : List RawTime) : List TimeRow := rows.map loadTimeRow

/-! ### Dataset loader (load_data, app.py lines 23-67)

The three sheet reads each sit in their own `try`/`except` whose handler
substitutes an empty table; only `get_gspread_client()` and
`client.open("Master_Finance_DB")` (lines 24-25) run outside every handler,
so only their failure propagates to the caller (caught at lines 63-67 and
turned into `st.stop()`). A `Backend` records the outcome of each external
call: `none` for a fetch models an exception raised inside that dataset's
block (missing sheet, malformed header, transport error). -/

structure Backend where
  openOk : Bool
  txFetch : Option (List RawTxn)
  budgetFetch : Option (List RawBudget)
  timeFetch : Option (List RawTime)

def load_data (b : Backend) : Except String (List Txn × List BudgetRow × List TimeRow) :=
  if b.openOk then
    Except.ok (b.txFetch.elim [] normalizeTx,
               b.budgetFetch.elim [] normalizeBudget,
               b.timeFetch.elim [] normalizeTime)
  else Except.error "open failed"

/-! ### Month filter and aggregates -/

/-- `df_tx[df_tx["Month_Sort"] == selected_month]` (app.py line 140). A NaN
`Month_Sort` compares unequal to every selected month. -/
def sub_tx (txs : List Txn) (m : String) : List Txn :=
  txs.filter (fun t => t.monthSort == some m)

def sub_time (logs : List TimeRow) (m : String) : List TimeRow :=
  logs.filter (fun t => t.monthSort == some m)

/-- `df["Month_Sort"].dropna()` (app.py lines 79-80). -/
def monthValues (txs : List Txn) : List String := txs.filterMap (fun t => t.monthSort)

def timeMonthValues (logs : List TimeRow) : List String :=
  logs.filterMap (fun t => t.monthSort)

/-- The selectable months (app.py lines 78-81): the set of non-null month
keys of both tables. The UI sorts this set for display; order carries no
meaning here. -/
def all_months (txs : List Txn) (logs : List TimeRow) : List String :=
  (monthValues txs ++ timeMonthValues logs).dedup

def total_spend (txs : List Txn) : Rat := (txs.map Txn.amount).sum

/-- The distinct categories, in first-appearance order (pandas groupby keys). -/
def txCategories (txs : List Txn) : List String := (txs.map Txn.category).dedup

/-- `sub_tx.groupby("Category")["Amount"].sum()` (app.py lines 176 and 182). -/
def categorySums (txs : List Txn) : List (String × Rat) :=
  (txCategories txs).map (fun c => (c, total_spend (txs.filter (fun t => t.category == c))))

/-! ### Budget comparison (app.py lines 180-213) -/

def lookupSum (actuals : List (String × Rat)) (c : String) : Rat :=
  ((actuals.find? (fun a => a.1 == c)).map Prod.snd).getD 0

structure MergedRow where
  category : String
  monthlyLimit : Rat
  amount : Rat
deriving DecidableEq, Repr

/-- `pd.merge(df_budget, actuals, on="Category", how="outer").fillna(0)`
(app.py line 183): one row per budget row carrying the matching category sum
(0 when the category has no transactions this month), then one row per
transaction category that matches no budget row, with limit filled to 0. -/
def merged (budget : List BudgetRow) (actuals : List (String × Rat)) : List MergedRow :=
  budget.map (fun b => ⟨b.category, b.monthlyLimit, lookupSum actuals b.category⟩)
    ++ (actuals.filter (fun a => !(budget.any (fun b => b.category == a.1)))).map
        (fun a => ⟨a.1, 0, a.2⟩)

/-- The Usage % masks of app.py lines 185-190: start at 0, rows with a
positive limit get `amount / limit * 100`, rows with limit 0 and positive
amount get exactly 100. The division runs only under the positive-limit
mask, so a zero limit is never divided by. -/
def usage_percent (limit amount : Rat) : Rat :=
  if 0 < limit then amount / limit * 100
  else if limit = 0 ∧ 0 < amount then 100
  else 0

/-- The three row markers of the budget tab (app.py line 201):
`onTrack` = the check mark, `warning` = the warning sign, `overBudget` = the
siren. There is no fourth marker. -/
inductive Status where
  | onTrack
  | warning
  | overBudget
deriving DecidableEq, Repr

/-- `col_status = check if pct < 80 else warning if pct < 100 else siren`. -/
def col_status (pct : Rat) : Status :=
  if pct < 80 then Status.onTrack else if pct < 100 then Status.warning else Status.overBudget

/-! ### Burndown projection (app.py lines 156-165) -/

/-- Day `i` (0-based) of the month, as the midnight timestamp `pd.date_range`
produces. -/
def monthDate (y m i : Nat) : PDateTime := ⟨⟨y, m, i + 1⟩, 0⟩

/-- `pd.date_range(first day, last day)` of the selected month. -/
def month_dates (y m : Nat) : List PDateTime :=
  (List.range (daysInMonth y m)).map (monthDate y m)

/-- The group sum for one date key; 0 when no transaction carries that date
(`reindex(all_dates, fill_value=0)`). -/
def spend_on (txs : List Txn) (d : PDateTime) : Rat :=
  total_spend (txs.filter (fun t => t.date == some d))

/-- `sub_tx.groupby("Date")["Amount"].sum().reindex(all_dates, fill_value=0)`. -/
def daily_spends (txs : List Txn) (y m : Nat) : List Rat :=
  (month_dates y m).map (spend_on txs)

/-- `cumsum()` of a column. -/
def cumsum : List Rat → List Rat
  | [] => []
  | x :: xs => x :: (cumsum xs).map (fun c => x + c)

/-- `Remaining = total_budget - Cumulative_Spend` (app.py line 164). -/
def remaining (B : Rat) (txs : List Txn) (y m : Nat) : List Rat :=
  (cumsum (daily_spends txs y m)).map (fun c => B - c)

/-- `Ideal = [B - (B/last_day * (i+1)) for i in range(N)]` (app.py line 165). -/
def ideal_pace (B : Rat) (n : Nat) : List Rat :=
  (List.range n).map (fun i : Nat => B - B / (n : Rat) * ((i : Rat) + 1))

/-! ### Time audit and hourly rate (app.py lines 220-258) -/

def total_hours (logs : List TimeRow) : Rat := (logs.map TimeRow.hours).sum

/-- `sub_time[sub_time["Category"].isin(["Deep Work", "Meetings"])]["Hours"].sum()`. -/
def work_hrs (logs : List TimeRow) : Rat :=
  total_hours (logs.filter (fun t => t.category == "Deep Work" || t.category == "Meetings"))

def commute_hrs (logs : List TimeRow) : Rat :=
  total_hours (logs.filter (fun t => t.category == "Commute"))

/-- `real_effort = work_hrs + commute_hrs` (app.py line 250). -/
def real_effort (logs : List TimeRow) : Rat := work_hrs logs + commute_hrs logs

/-- `sub_time["Date"].nunique()` (app.py line 254): distinct non-null dates. -/
def days_logged (logs : List TimeRow) : Nat :=
  ((logs.filterMap TimeRow.date).dedup).length

/-- `projected_hours = (real_effort / days_logged) * 22` (app.py line 256). -/
def projected_hours (logs : List TimeRow) : Rat :=
  real_effort logs / (days_logged logs : Rat) * 22

/-- The hourly-rate metric (app.py lines 252-258): shown only when
`real_effort > 0` and `days_logged > 0` (`none` = no metric rendered), and
`salary / projected_hours` guarded by `projected_hours > 0`. -/
def hourly_rate (salary : Rat) (logs : List TimeRow) : Option Rat :=
  if 0 < real_effort logs then
    if 0 < days_logged logs then
      some (if 0 < projected_hours logs then salary / projected_hours logs else 0)
    else none
  else none

/-! ### Expense submission (app.py lines 94-105)

On submit the handler appends the row to the backing sheet, and only on
success clears the cache (`st.cache_data.clear()`) and reruns; the handler
of a failed append reports the error and touches nothing. `AppState` holds
the backing sheet and the cached normalized table; `read_txns` is the next
`load_data()` call, which serves the cache when it is live. -/

inductive SubmitOutcome where
  | saved
  | failed (msg : String)
deriving DecidableEq, Repr

structure AppState where
  txStore : List RawTxn
  txCache : Option (List Txn)
deriving DecidableEq, Repr

def read_txns (st : AppState) : List Txn := st.txCache.getD (normalizeTx st.txStore)

/-- The Save Expense handler: `appendOk` is whether `sheet.append_row`
succeeded. -/
def add_txn_submit (appendOk : Bool) (row : RawTxn) (st : AppState) :
    SubmitOutcome × AppState :=
  if appendOk then (SubmitOutcome.saved, ⟨st.txStore ++ [row], none⟩)
  else (SubmitOutcome.failed "append error", st)

/-- A concrete ten-day time log used to evaluate the hourly-rate theorem:
eight Deep Work hours on each of the first ten days of January 2025. -/
def demoLogs : List TimeRow :=
  (List.range 10).map (fun i =>
    { date := some ⟨⟨2025, 1, i + 1⟩, 0⟩, category := "Deep Work", activity := "",
      hours := 8, monthSort := some "2025-01" })

/-! ### Shared lemmas -/

theorem cumsum_length (l : List Rat) : (cumsum l).length = l.length := by
  induction l with
  | nil => rfl
  | cons x xs ih => simp [cumsum, ih]

theorem getD_map_eq {α β : Type} (f : α → β) (l : List α) (n : Nat) (dA : α) (dB : β)
    (h : n < l.length) : (l.map f).getD n dB = f (l.getD n dA) := by
  rw [List.getD_eq_getElem _ _ (by simpa using h), List.getD_eq_getElem _ _ h,
    List.getElem_map]

theorem getD_range_map {β : Type} (f : Nat → β) (n i : Nat) (d : β) (h : i < n) :
    ((List.range n).map f).getD i d = f i := by
  rw [List.getD_eq_getElem _ _ (by simpa using h)]
  simp

theorem cumsum_getD (l : List Rat) (i : Nat) (h : i < l.length) :
    (cumsum l).getD i 0 = (l.take (i + 1)).sum := by
  induction l generalizing i with
  | nil => simp at h
  | cons x xs ih =>
    cases i with
    | zero => simp [cumsum]
    | succ n =>
      have hn : n < xs.length := by simpa using h
      have hc : n < (cumsum xs).length := by rw [cumsum_length]; exact hn
      simp only [cumsum, List.getD_cons_succ, List.take_succ_cons, List.sum_cons]
      rw [getD_map_eq (fun c => x + c) (cumsum xs) n 0 0 hc, ih n hn]

theorem daysInMonth_pos (y m : Nat) : 0 < daysInMonth y m := by
  unfold daysInMonth
  split
  · split <;> norm_num
  · split <;> norm_num

theorem total_hours_cons (t : TimeRow) (l : List TimeRow) :
    total_hours (t :: l) = t.hours + total_hours l := by
  simp [total_hours]

theorem total_hours_filter_or (p q : TimeRow → Bool)
    (hdisj : ∀ t, ¬(p t = true ∧ q t = true)) (logs : List TimeRow) :
    total_hours (logs.filter (fun t => p t || q t))
      = total_hours (logs.filter p) + total_hours (logs.filter q) := by
  induction logs with
  | nil => simp [total_hours]
  | cons t ts ih =>
    rcases hp : p t with _ | _ <;> rcases hq : q t with _ | _
    · simpa [List.filter_cons, hp, hq] using ih
    · rw [List.filter_cons, List.filter_cons, List.filter_cons]
      simp only [hp, hq, Bool.false_or, if_pos, if_neg, Bool.false_eq_true,
        not_false_eq_true, ite_true, ite_false]
      rw [total_hours_cons, total_hours_cons, ih]
      ring
    · rw [List.filter_cons, List.filter_cons, List.filter_cons]
      simp only [hp, hq, Bool.true_or, Bool.false_eq_true, ite_true, ite_false]
      rw [total_hours_cons, total_hours_cons, ih]
      ring
    · exact absurd ⟨hp, hq⟩ (hdisj t)

theorem mem_categorySums (txs : List Txn) (c : String) :
    (∃ t ∈ txs, t.category = c) ↔ ∃ s, (c, s) ∈ categorySums txs := by
  constructor
  · rintro ⟨t, ht, rfl⟩
    exact ⟨_, List.mem_map_of_mem _ (List.mem_dedup.mpr (List.mem_map_of_mem _ ht))⟩
  · rintro ⟨s, hs⟩
    obtain ⟨c2, hc2, heq⟩ := List.mem_map.mp hs
    obtain ⟨t, ht, htc⟩ := List.mem_map.mp (List.mem_dedup.mp hc2)
    refine ⟨t, ht, ?_⟩
    rw [htc]
    exact congrArg Prod.fst heq

/-! ### The claims -/

/-- C1 counterexample: with the workbook opening fine, a failure inside the
transactions block (`txFetch = none`, app.py line 36) yields `ok` with an
EMPTY transactions table while the Budgets sheet still loads — the primary
dataset's failure is not surfaced to the caller as a hard failure. -/
theorem c1_counterexample :
    load_data { openOk := true, txFetch := none,
                budgetFetch := some [⟨"Food", "500"⟩], timeFetch := some [] } =
      Except.ok ([], [⟨"Food", 500⟩], []) := by
  have h500 : parse_amount "500" = 500 := by decide
  simp [load_data, normalizeBudget, normalizeTime, loadBudgetRow, h500]

/-- C1 (amended): every per-dataset failure — the transactions sheet
included — degrades to an empty table while the other datasets still load;
the one hard failure surfaced to the caller is a failure to open the backing
store (auth/transport, app.py lines 24-25), which precedes every dataset. -/
theorem c1_load_failure_policy (b : Backend) :
    (b.openOk = false → load_data b = Except.error "open failed")
    ∧ (b.openOk = true →
        load_data b = Except.ok (b.txFetch.elim [] normalizeTx,
                                 b.budgetFetch.elim [] normalizeBudget,
                                 b.timeFetch.elim [] normalizeTime)) := by
  constructor <;> intro h <;> simp [load_data, h]

/-- C2 counterexample: a raw row whose date text fails to parse is retained
in the normalized table, with a null date — the table does keep a row with a
null date, the row is not dropped. -/
theorem c2_counterexample :
    normalizeTx [⟨"not a date", "10", "Food", "lunch", "UPI"⟩] =
      [{ date := none, amount := 10, category := "Food", description := "lunch",
         mode := "UPI", monthSort := none }] := by
  decide

/-- C2 (amended): the normalizer keeps one record per raw row; a row whose
date text fails to parse is RETAINED with a null date and a null period key
(so every monthly view excludes it) rather than dropped, and a row whose
amount text fails to parse is retained with amount 0. -/
theorem c2_row_retention (r : RawTxn) (rows : List RawTxn) :
    (normalizeTx rows).length = rows.length
    ∧ (r ∈ rows → loadTxnRow r ∈ normalizeTx rows)
    ∧ (parse_date r.dateText = none →
        (loadTxnRow r).date = none ∧ (loadTxnRow r).monthSort = none)
    ∧ (parseDec (cleanAmountChars r.amountText.data) = none →
        (loadTxnRow r).amount = 0) := by
  refine ⟨List.length_map _ _, fun h => List.mem_map_of_mem _ h,
    fun h => ⟨by simp [loadTxnRow, h], by simp [loadTxnRow, h]⟩, fun h => ?_⟩
  simp [loadTxnRow, parse_amount, h]

/-- C3: on a budget-comparison row with monthly limit L and spent amount s,
Usage % is 100*s/L when L > 0, exactly 100 when L = 0 and s > 0, and 0 when
L = 0 and s = 0; the division runs only under the L > 0 mask, never against
a zero limit. -/
theorem c3_usage_percent_cases (L s : Rat) :
    (0 < L → usage_percent L s = 100 * s / L)
    ∧ (L = 0 → 0 < s → usage_percent L s = 100)
    ∧ (L = 0 → s = 0 → usage_percent L s = 0) := by
  refine ⟨fun h => ?_, fun h hs => ?_, fun h hs => ?_⟩
  · rw [usage_percent, if_pos h]; ring
  · rw [usage_percent, if_neg (by simp [h]), if_pos ⟨h, hs⟩]
  · rw [usage_percent, if_neg (by simp [h]), if_neg (by simp [h, hs])]

/-- C4 counterexample: at usage exactly 100 the code renders the over-budget
marker, not the warning marker the claim assigns to the 80-100 inclusive
band. -/
theorem c4_counterexample :
    col_status 100 = Status.overBudget ∧ Status.overBudget ≠ Status.warning := by
  refine ⟨?_, by decide⟩
  rw [col_status, if_neg (by norm_num), if_neg (by norm_num)]

/-- C4 (amended): the marker is on-track below 80, warning on 80 ≤ p < 100,
and over-budget from 100 up; there is no distinct unbudgeted marker — a
category with no matching limit row gets limit 0, hence usage 100, and is
rendered with the same over-budget marker. -/
theorem c4_status_classification (p : Rat) :
    (p < 80 → col_status p = Status.onTrack)
    ∧ (80 ≤ p → p < 100 → col_status p = Status.warning)
    ∧ (100 ≤ p → col_status p = Status.overBudget)
    ∧ (∀ s : Rat, 0 < s → col_status (usage_percent 0 s) = Status.overBudget) := by
  refine ⟨fun h => ?_, fun h1 h2 => ?_, fun h => ?_, fun s hs => ?_⟩
  · rw [col_status, if_pos h]
  · rw [col_status, if_neg (by linarith), if_pos h2]
  · rw [col_status, if_neg (by linarith), if_neg (by linarith)]
  · have h100 : usage_percent 0 s = 100 := by
      rw [usage_percent, if_neg (by norm_num), if_pos ⟨rfl, hs⟩]
    rw [h100, col_status, if_neg (by norm_num), if_neg (by norm_num)]

/-- C5: the burndown columns run over the full day sequence of the selected
month (length = days in month); a day on which no transaction falls
contributes a daily spend of 0; remaining on day index i is the budget minus
the cumulative spend through that day; the ideal-pace value on day index i
is B - (B/N)*(i+1); and the ideal curve is exactly 0 on the last day. -/
theorem c5_burndown (txs : List Txn) (B : Rat) (y m : Nat) :
    (daily_spends txs y m).length = daysInMonth y m
    ∧ (remaining B txs y m).length = daysInMonth y m
    ∧ (∀ i, i < daysInMonth y m → (∀ t ∈ txs, t.date ≠ some (monthDate y m i)) →
        (daily_spends txs y m).getD i 0 = 0)
    ∧ (∀ i, i < daysInMonth y m →
        (remaining B txs y m).getD i 0 = B - ((daily_spends txs y m).take (i + 1)).sum)
    ∧ (∀ i, i < daysInMonth y m →
        (ideal_pace B (daysInMonth y m)).getD i 0
          = B - B / (daysInMonth y m : Rat) * ((i : Rat) + 1))
    ∧ (ideal_pace B (daysInMonth y m)).getD (daysInMonth y m - 1) 0 = 0 := by
  have hlen : (daily_spends txs y m).length = daysInMonth y m := by
    simp [daily_spends, month_dates]
  have hdaily : ∀ i, i < daysInMonth y m →
      (daily_spends txs y m).getD i 0 = spend_on txs (monthDate y m i) := by
    intro i hi
    rw [daily_spends, month_dates, List.map_map]
    exact getD_range_map _ _ _ _ hi
  have hideal : ∀ i, i < daysInMonth y m →
      (ideal_pace B (daysInMonth y m)).getD i 0
        = B - B / (daysInMonth y m : Rat) * ((i : Rat) + 1) := by
    intro i hi
    rw [ideal_pace]
    exact getD_range_map _ _ _ _ hi
  refine ⟨hlen, ?_, ?_, ?_, hideal, ?_⟩
  · rw [remaining, List.length_map, cumsum_length, hlen]
  · intro i hi hnone
    rw [hdaily i hi, spend_on, total_spend]
    have : txs.filter (fun t => t.date == some (monthDate y m i)) = [] := by
      rw [List.filter_eq_nil_iff]
      intro t ht
      simpa using hnone t ht
    rw [this]
    rfl
  · intro i hi
    have hc : i < (cumsum (daily_spends txs y m)).length := by
      rw [cumsum_length, hlen]; exact hi
    rw [remaining, getD_map_eq (fun c => B - c) _ i 0 0 hc,
      cumsum_getD _ i (by rw [hlen]; exact hi)]
  · have hN : 0 < daysInMonth y m := daysInMonth_pos y m
    rw [hideal (daysInMonth y m - 1) (by omega)]
    have hcast : ((daysInMonth y m - 1 : Nat) : Rat) + 1 = (daysInMonth y m : Rat) := by
      rw [Nat.cast_sub hN]
      ring
    rw [hcast, div_mul_cancel₀ B (by exact_mod_cast hN.ne'), sub_self]

/-- C6: the effort hours are the hour-sum over the work-effort categories
(Deep Work, Meetings, Commute); distinct days logged counts the distinct
non-null dates of the period's time logs; projected monthly hours are
(effort / distinct days) x 22, computed only when distinct days > 0; and the
shown rate is income / projected hours, computed only when that is positive. -/
theorem c6_hourly_rate (salary : Rat) (logs : List TimeRow)
    (he : 0 < real_effort logs) (hd : 0 < days_logged logs)
    (hp : 0 < projected_hours logs) :
    real_effort logs = total_hours (logs.filter (fun t =>
        (t.category == "Deep Work" || t.category == "Meetings")
          || t.category == "Commute"))
    ∧ days_logged logs = (logs.filterMap TimeRow.date).dedup.length
    ∧ projected_hours logs = real_effort logs / (days_logged logs : Rat) * 22
    ∧ hourly_rate salary logs = some (salary / projected_hours logs) := by
  refine ⟨?_, rfl, rfl, ?_⟩
  · rw [total_hours_filter_or _ _ ?_ logs]
    · rfl
    · intro t ⟨h1, h2⟩
      rcases Bool.or_eq_true_iff.mp h1 with h | h <;>
        · rw [beq_iff_eq] at h h2
          rw [h] at h2
          exact absurd h2 (by decide)
  · rw [hourly_rate, if_pos he, if_pos hd, if_pos hp]

/-- C6 witness: income 100000 against ten eight-hour Deep Work days gives
projected hours (80/10) x 22 = 176 and rate 100000/176 = 6250/11. -/
theorem c6_witness :
    projected_hours demoLogs = 176
    ∧ hourly_rate 100000 demoLogs = some (6250 / 11) := by
  have h80 : real_effort demoLogs = 80 := by
    simp [demoLogs, real_effort, work_hrs, commute_hrs, total_hours, List.range_succ]
    norm_num
  have h10 : days_logged demoLogs = 10 := by decide
  have hproj : projected_hours demoLogs = 176 := by
    rw [projected_hours, h80, h10]
    norm_num
  have h := c6_hourly_rate 100000 demoLogs (by rw [h80]; norm_num)
    (by rw [h10]; norm_num) (by rw [hproj]; norm_num)
  refine ⟨hproj, ?_⟩
  rw [h.2.2.2, hproj]
  norm_num

/-- C7: the outer merge of the period's category sums with the budget rows
covers exactly the categories present on either side — unbudgeted spend and
budgeted-but-unspent categories both appear, none is dropped. -/
theorem c7_outer_join_complete (budget : List BudgetRow) (txs : List Txn) (c : String) :
    ((∃ b ∈ budget, b.category = c) ∨ (∃ t ∈ txs, t.category = c))
      ↔ ∃ row ∈ merged budget (categorySums txs), row.category = c := by
  constructor
  · rintro (⟨b, hb, rfl⟩ | htx)
    · exact ⟨⟨b.category, b.monthlyLimit, lookupSum (categorySums txs) b.category⟩,
        List.mem_append_left _ (List.mem_map_of_mem _ hb), rfl⟩
    · obtain ⟨s, hs⟩ := (mem_categorySums txs c).mp htx
      by_cases hb : budget.any (fun b => b.category == c)
      · obtain ⟨b, hbm, hbc⟩ := List.any_eq_true.mp hb
        rw [beq_iff_eq] at hbc
        exact ⟨⟨b.category, b.monthlyLimit, lookupSum (categorySums txs) b.category⟩,
          List.mem_append_left _ (List.mem_map_of_mem _ hbm), hbc⟩
      · refine ⟨⟨c, 0, s⟩, List.mem_append_right _ ?_, rfl⟩
        refine List.mem_map_of_mem _ (List.mem_filter.mpr ⟨hs, ?_⟩)
        simpa using hb
  · rintro ⟨row, hrow, rfl⟩
    rcases List.mem_append.mp hrow with hleft | hright
    · obtain ⟨b, hbm, hbe⟩ := List.mem_map.mp hleft
      left
      exact ⟨b, hbm, congrArg MergedRow.category hbe⟩
    · obtain ⟨a, ham, hae⟩ := List.mem_map.mp hright
      right
      have ha : a ∈ categorySums txs := (List.mem_filter.mp ham).1
      have : ∃ s, (row.category, s) ∈ categorySums txs := by
        refine ⟨a.2, ?_⟩
        have hc : a.1 = row.category := congrArg MergedRow.category hae
        rwa [← hc, Prod.mk.eta]
      exact (mem_categorySums txs row.category).mpr this

/-- C8 counterexample: a `T`-separated timestamp is parsed whole — its
time-of-day is retained, not discarded — so it does not yield the same value
as the bare date, contradicting truncation at "the first whitespace or T". -/
theorem c8_counterexample :
    parse_date "2025-03-05T14:22:10" = some ⟨⟨2025, 3, 5⟩, 51730⟩
    ∧ parse_date "2025-03-05" = some ⟨⟨2025, 3, 5⟩, 0⟩
    ∧ parse_date "2025-03-05T14:22:10" ≠ parse_date "2025-03-05" := by
  refine ⟨by decide, by decide, by decide⟩

/-- C8 (amended): date parsing truncates at the first SPACE character only
(a `T` separator is not stripped; a T-separated timestamp keeps its
time-of-day), and failure yields the sentinel `none` (NaT) rather than an
exception; the quoted example still holds:
`parse_date "2025-03-05 14:22:10" = parse_date "2025-03-05"`. -/
theorem c8_space_truncation :
    parse_date "2025-03-05 14:22:10" = parse_date "2025-03-05"
    ∧ parse_date "2025-03-05 14:22:10" = some ⟨⟨2025, 3, 5⟩, 0⟩
    ∧ parse_date "2025-03-05T14:22:10" = some ⟨⟨2025, 3, 5⟩, 51730⟩
    ∧ parse_date "bogus" = none
    ∧ parse_date "2025-13-05" = none := by
  refine ⟨by decide, by decide, by decide, by decide, by decide⟩

/-- C9: a successful append invalidates the cache (the next read normalizes
the backing store afresh, so the appended record is visible in it); a failed
append reports the failure and leaves the store, the loaded tables and the
cache untouched. -/
theorem c9_append_cache_policy (row : RawTxn) (st : AppState) :
    ((add_txn_submit true row st).1 = SubmitOutcome.saved
      ∧ (add_txn_submit true row st).2.txCache = none
      ∧ read_txns (add_txn_submit true row st).2 = normalizeTx (st.txStore ++ [row])
      ∧ loadTxnRow row ∈ read_txns (add_txn_submit true row st).2)
    ∧ add_txn_submit false row st = (SubmitOutcome.failed "append error", st) := by
  refine ⟨⟨rfl, rfl, rfl, ?_⟩, rfl⟩
  simp [read_txns, add_txn_submit, normalizeTx]

/-- C10: a transaction row whose date text fails to parse carries a null
period key; appending such a raw row changes no month's filtered table, no
month's total spend, and the list of selectable months. -/
theorem c10_bad_date_invisible (r : RawTxn) (h : parse_date r.dateText = none) :
    (loadTxnRow r).monthSort = none
    ∧ (∀ rows m, sub_tx (normalizeTx (rows ++ [r])) m = sub_tx (normalizeTx rows) m)
    ∧ (∀ rows m, total_spend (sub_tx (normalizeTx (rows ++ [r])) m)
        = total_spend (sub_tx (normalizeTx rows) m))
    ∧ (∀ rows logs, all_months (normalizeTx (rows ++ [r])) logs
        = all_months (normalizeTx rows) logs) := by
  have hm : (loadTxnRow r).monthSort = none := by simp [loadTxnRow, h]
  have hsub : ∀ rows m, sub_tx (normalizeTx (rows ++ [r])) m = sub_tx (normalizeTx rows) m := by
    intro rows m
    simp [normalizeTx, sub_tx, hm]
  refine ⟨hm, hsub, fun rows m => by rw [hsub], fun rows logs => ?_⟩
  simp [all_months, monthValues, normalizeTx, hm]

/-- C10 witness: a garbage-dated row gets a null period key and leaves the
January 2025 view, its total and the selectable months unchanged. -/
theorem c10_witness :
    (loadTxnRow ⟨"garbage", "5", "Food", "", ""⟩).monthSort = none
    ∧ sub_tx (normalizeTx ([⟨"2025-01-05", "200", "Food", "", "UPI"⟩] ++
        [⟨"garbage", "5", "Food", "", ""⟩])) "2025-01"
      = sub_tx (normalizeTx [⟨"2025-01-05", "200", "Food", "", "UPI"⟩]) "2025-01"
    ∧ all_months (normalizeTx ([⟨"2025-01-05", "200", "Food", "", "UPI"⟩] ++
        [⟨"garbage", "5", "Food", "", ""⟩])) []
      = all_months (normalizeTx [⟨"2025-01-05", "200", "Food", "", "UPI"⟩]) [] := by
  have h := c10_bad_date_invisible ⟨"garbage", "5", "Food", "", ""⟩ (by decide)
  exact ⟨h.1, h.2.1 _ _, h.2.2.2 _ _⟩

end FinanceHQ
